import Mathlib

/-!
Shallow embedding of the text-analysis heuristic pipeline of this
repository: the "TextSignal" record produced from the NLP backend response
and the threshold-based classifier helpers of the funding, market, pitch
and idea/SWOT routes.  Numeric scores are modelled as rationals (the
source's decimal literals such as 0.3 are exact), strings as `String`,
and the JavaScript `toLowerCase` as a structural character map.
-/

/-- A document- or entity-level sentiment record: score and magnitude. -/
structure Sentiment where
  score : ℚ
  magnitude : ℚ
deriving DecidableEq

/-- An entity returned by the NLP backend: name, type tag, salience and
its own sentiment.  `metadataDescription` models `metadata.description`,
which may be absent. -/
structure Entity where
  name : String
  type : String
  salience : ℚ
  sentiment : Sentiment
  metadataDescription : Option String
deriving DecidableEq

/-- The text content of one sentence, as in `sentence.text.content`. -/
structure SentenceText where
  content : String
deriving DecidableEq

/-- One sentence of the syntactic breakdown. -/
structure Sentence where
  text : SentenceText
deriving DecidableEq

/-- The syntactic part of the backend response (`sentences` array);
models the source's `syntaxResult` field of the analysis record. -/
structure SentenceBreakdown where
  sentences : List Sentence
deriving DecidableEq

/-- A content category with its confidence. -/
structure Category where
  name : String
  confidence : ℚ
deriving DecidableEq

/-- The normalized analysis record each route builds from the backend
(`sentiment`, `entities`, syntactic breakdown, `categories`). -/
structure TextSignal where
  sentiment : Sentiment
  entities : List Entity
  sentenceInfo : SentenceBreakdown
  categories : List Category
deriving DecidableEq

/-- The JavaScript `String.prototype.toLowerCase` for the ASCII names the
routes compare, as a structural map over the characters. -/
def toLowerCase (s : String) : String :=
  ⟨s.data.map Char.toLower⟩

/-- JavaScript `||` on a possibly-absent string: an absent or empty
string is falsy and yields the fallback. -/
def jsOrString (s : Option String) (fallback : String) : String :=
  match s with
  | none => fallback
  | some v => if v = "" then fallback else v

/-- JavaScript division producing a rational when the denominator is
nonzero; a zero denominator gives `NaN`/`Infinity`, modelled as `none`. -/
def jsDiv (a b : ℚ) : Option ℚ :=
  if b = 0 then none else some (a / b)

namespace Funding

/-- The `calculateMatchScore` helper of the funding routes: sentiment base
`(score + 1) * 50`, plus 10 per requirements entity whose lower-cased name
is among the lower-cased pitch entity names, capped at 100. -/
def calculateMatchScore (pitchAnalysis requirementsAnalysis : TextSignal) : ℚ :=
  let base := (pitchAnalysis.sentiment.score + 1) * 50
  let pitchEntities := pitchAnalysis.entities.map (fun e => toLowerCase e.name)
  let reqEntities := requirementsAnalysis.entities.map (fun e => toLowerCase e.name)
  let score := reqEntities.foldl
    (fun acc e => if pitchEntities.contains e then acc + 10 else acc) base
  min 100 score

/-- The number of requirements entities whose lower-cased name occurs
among the lower-cased pitch entity names (duplicates counted per
requirements entity, as the source's `forEach` does). -/
def overlapCount (pitchAnalysis requirementsAnalysis : TextSignal) : ℕ :=
  ((requirementsAnalysis.entities.map (fun e => toLowerCase e.name)).filter
    (fun e => (pitchAnalysis.entities.map (fun x => toLowerCase x.name)).contains e)).length

/-- The match-score formula as the specification states it:
`min(100, (sentiment + 1) * 50 + 10 * number of overlapping names)`. -/
def matchScoreFormula (pitchAnalysis requirementsAnalysis : TextSignal) : ℚ :=
  min 100 ((pitchAnalysis.sentiment.score + 1) * 50
    + 10 * (overlapCount pitchAnalysis requirementsAnalysis : ℚ))

/-- The `calculateReadinessScore` helper of the funding routes: component
weights 20/20/10 for business/financial/team, capped at 100. -/
def calculateReadinessScore (businessAnalysis financialsAnalysis teamAnalysis : TextSignal) : ℚ :=
  let score : ℚ := 0
  let score := score + (businessAnalysis.sentiment.score + 1) * 20
  let score := score + (financialsAnalysis.sentiment.score + 1) * 20
  let score := score + (teamAnalysis.sentiment.score + 1) * 10
  min 100 score

/-- The readiness-score formula as the specification states it. -/
def readinessScoreFormula (businessAnalysis financialsAnalysis teamAnalysis : TextSignal) : ℚ :=
  min 100 ((businessAnalysis.sentiment.score + 1) * 20
    + (financialsAnalysis.sentiment.score + 1) * 20
    + (teamAnalysis.sentiment.score + 1) * 10)

end Funding

namespace Market

/-- One "key factor" item of the market overview. -/
structure KeyFactor where
  factor : String
  importance : ℚ
  sentiment : ℚ
deriving DecidableEq

/-- The `extractKeyFactors` helper: entities with salience above 0.3,
shaped as key-factor items. -/
def extractKeyFactors (analysis : TextSignal) : List KeyFactor :=
  (analysis.entities.filter (fun e => e.salience > 3/10)).map
    (fun e => ⟨e.name, e.salience, e.sentiment.score⟩)

/-- One market-size item. -/
structure MarketSizeItem where
  value : String
  context : String
deriving DecidableEq

/-- The `extractMarketSize` helper: `NUMBER`-typed entities with their
metadata description or a fallback. -/
def extractMarketSize (analysis : TextSignal) : List MarketSizeItem :=
  let numbers := analysis.entities.filter (fun e => e.type == "NUMBER")
  numbers.map (fun n => ⟨n.name, jsOrString n.metadataDescription "market size"⟩)

/-- One industry-trend item. -/
structure TrendItem where
  trend : String
  impact : ℚ
  relevance : ℚ
deriving DecidableEq

/-- The `extractTrends` helper: entities with salience above 0.2 and a
nonzero sentiment score. -/
def extractTrends (analysis : TextSignal) : List TrendItem :=
  (analysis.entities.filter (fun e => e.salience > 1/5 && e.sentiment.score != 0)).map
    (fun e => ⟨e.name, e.sentiment.score, e.salience⟩)

/-- One challenge item. -/
structure Challenge where
  challenge : String
  severity : ℚ
  relevance : ℚ
deriving DecidableEq

/-- The `extractChallenges` helper: entities with negative sentiment. -/
def extractChallenges (analysis : TextSignal) : List Challenge :=
  (analysis.entities.filter (fun e => e.sentiment.score < 0)).map
    (fun e => ⟨e.name, |e.sentiment.score|, e.salience⟩)

/-- One opportunity item of the industry analysis. -/
structure Opportunity where
  opportunity : String
  potential : ℚ
  relevance : ℚ
deriving DecidableEq

/-- The `extractOpportunities` helper of the market route: entities with
positive sentiment and salience above 0.2. -/
def extractOpportunities (analysis : TextSignal) : List Opportunity :=
  (analysis.entities.filter (fun e => e.sentiment.score > 0 && e.salience > 1/5)).map
    (fun e => ⟨e.name, e.sentiment.score, e.salience⟩)

/-- One growth-trend item. -/
structure GrowthTrend where
  trend : String
  growth : String
  confidence : ℚ
deriving DecidableEq

/-- The `analyzeTrends` helper: entities with salience above 0.2, tagged
Growing or Declining by sentiment sign. -/
def analyzeTrends (analysis : TextSignal) : List GrowthTrend :=
  (analysis.entities.filter (fun e => e.salience > 1/5)).map
    (fun e => ⟨e.name, if e.sentiment.score > 0 then "Growing" else "Declining", e.salience⟩)

/-- The forecast record of the growth-potential section. -/
structure Forecast where
  outlook : String
  confidence : ℚ
  keyDrivers : List String
deriving DecidableEq

/-- The `generateForecast` helper. -/
def generateForecast (analysis : TextSignal) : Forecast :=
  let trends := analysis.entities.filter (fun e => e.salience > 3/10)
  let sentiment := analysis.sentiment.score
  ⟨if sentiment > 0 then "Positive" else "Challenging", |sentiment|,
    trends.map (fun t => t.name)⟩

/-- The `generateMarketRecommendations` helper: pushes fixed strings based
on the market document sentiment and on whether any industry challenge was
extracted. -/
def generateMarketRecommendations (marketAnalysis industryAnalysis : TextSignal) : List String :=
  let recommendations : List String :=
    if marketAnalysis.sentiment.score > 3/10 then
      ["Consider aggressive market entry strategies"]
    else if marketAnalysis.sentiment.score < 0 then
      ["Focus on niche market segments initially"]
    else []
  let challenges := extractChallenges industryAnalysis
  if challenges.length > 0 then
    recommendations ++ ["Develop mitigation strategies for identified challenges"]
  else recommendations

/-- One resource-allocation item of the strategy route. -/
structure Resource where
  resource : String
  availability : String
  priority : ℚ
deriving DecidableEq

/-- The `analyzeResources` helper of the strategy route: entities with
salience above 0.2. -/
def analyzeResources (analysis : TextSignal) : List Resource :=
  (analysis.entities.filter (fun e => e.salience > 1/5)).map
    (fun e => ⟨e.name, if e.sentiment.score > 0 then "Available" else "Limited", e.salience⟩)

/-- The `marketOverview` section of the `/analyze` response. -/
structure MarketOverview where
  sentiment : ℚ
  keyFactors : List KeyFactor
  marketSize : List MarketSizeItem
deriving DecidableEq

/-- The `industryAnalysis` section of the `/analyze` response. -/
structure IndustrySection where
  trends : List TrendItem
  challenges : List Challenge
  opportunities : List Opportunity
deriving DecidableEq

/-- The `growthPotential` section of the `/analyze` response. -/
structure GrowthPotential where
  trends : List GrowthTrend
  forecast : Forecast
deriving DecidableEq

/-- The full structured analysis of the `/analyze` route. -/
structure MarketAnalysisResult where
  marketOverview : MarketOverview
  industrySection : IndustrySection
  growthPotential : GrowthPotential
  recommendations : List String
deriving DecidableEq

/-- The analysis object the `/analyze` handler builds once all three
text-signal extractions have succeeded. -/
def buildMarketAnalysis (marketAnalysis industryAnalysis trendsAnalysis : TextSignal) :
    MarketAnalysisResult :=
  { marketOverview :=
      ⟨marketAnalysis.sentiment.score, extractKeyFactors marketAnalysis,
        extractMarketSize marketAnalysis⟩
    industrySection :=
      ⟨extractTrends industryAnalysis, extractChallenges industryAnalysis,
        extractOpportunities industryAnalysis⟩
    growthPotential :=
      ⟨analyzeTrends trendsAnalysis, generateForecast trendsAnalysis⟩
    recommendations := generateMarketRecommendations marketAnalysis industryAnalysis }

/-- An HTTP response of a route: a JSON payload, or an error status with a
static message. -/
inductive RouteResponse (α : Type) where
  | json : α → RouteResponse α
  | errorJson : ℕ → String → RouteResponse α
deriving DecidableEq

/-- The `/analyze` route handler: the three `analyzeMarketData` calls are
awaited in sequence inside one `try`; the first failure reaches the
`catch`, which answers 500 with a static message and no partial result. -/
def analyzeRoute (analyzeMarketData : String → Except String TextSignal)
    (market industry trends : String) : RouteResponse MarketAnalysisResult :=
  match analyzeMarketData market with
  | .error _ => .errorJson 500 "Failed to analyze market"
  | .ok marketAnalysis =>
    match analyzeMarketData industry with
    | .error _ => .errorJson 500 "Failed to analyze market"
    | .ok industryAnalysis =>
      match analyzeMarketData trends with
      | .error _ => .errorJson 500 "Failed to analyze market"
      | .ok trendsAnalysis =>
        .json (buildMarketAnalysis marketAnalysis industryAnalysis trendsAnalysis)

end Market

namespace Pitch

/-- The clarity section of the practice-feedback response: sentiment
magnitude scaled by 100 (no clamp) and the salient key terms. -/
structure ClarityFeedback where
  score : ℚ
  keyTerms : List String
deriving DecidableEq

/-- The `analyzeClarity` helper of the practice-feedback route. -/
def analyzeClarity (analysis : TextSignal) : ClarityFeedback :=
  { score := analysis.sentiment.magnitude * 100
    keyTerms := (analysis.entities.filter (fun e => e.salience > 1/5)).map
      (fun e => e.name) }

/-- The impact section of the practice-feedback response: sentiment score
scaled by 100 (no clamp) and the strongly positive entities. -/
structure ImpactFeedback where
  score : ℚ
  strongPoints : List String
deriving DecidableEq

/-- The `analyzeImpact` helper of the practice-feedback route. -/
def analyzeImpact (analysis : TextSignal) : ImpactFeedback :=
  { score := analysis.sentiment.score * 100
    strongPoints := (analysis.entities.filter (fun e => e.sentiment.score > 3/10)).map
      (fun e => e.name) }

/-- The structure section of the practice-feedback response.  The average
length divides by the sentence count with no zero-guard in the source, so
it is a partial value: `none` models the `NaN` of `0 / 0`. -/
structure StructureFeedback where
  sentenceCount : ℕ
  averageLength : Option ℚ
  flow : String
deriving DecidableEq

/-- The `analyzeStructure` helper of the practice-feedback route: the
source computes `sentences.reduce(..., 0) / sentences.length` directly. -/
def analyzeStructure (analysis : TextSignal) : StructureFeedback :=
  let sentences := analysis.sentenceInfo.sentences
  { sentenceCount := sentences.length
    averageLength := jsDiv
      (sentences.foldl (fun acc s => acc + (s.text.content.length : ℚ)) 0)
      (sentences.length : ℚ)
    flow := if sentences.length > 10 then "Complex" else "Concise" }

end Pitch

namespace Idea

/-- The feasibility section of the idea-check response: the document
sentiment score scaled by 100, with no clamp. -/
structure Feasibility where
  score : ℚ
  explanation : String
deriving DecidableEq

/-- The feasibility object built inline by the `/idea-check` handler. -/
def ideaCheckFeasibility (analysis : TextSignal) : Feasibility :=
  { score := analysis.sentiment.score * 100
    explanation := "The idea sentiment analysis shows "
      ++ (if analysis.sentiment.score > 0 then "positive" else "negative")
      ++ " indicators" }

/-- The `extractStrengths` helper of the SWOT route: a fixed message for
strongly positive idea sentiment, plus one naming the salient market
entities when there are any. -/
def extractStrengths (ideaAnalysis marketAnalysis : TextSignal) : List String :=
  let strengths : List String :=
    if ideaAnalysis.sentiment.score > 3/10 then
      ["Strong positive market perception potential"]
    else []
  let keyMarketEntities := (marketAnalysis.entities.filter
    (fun e => e.salience > 3/10)).map (fun e => e.name)
  if keyMarketEntities.length > 0 then
    strengths ++ ["Strong presence in key markets: "
      ++ String.intercalate ", " keyMarketEntities]
  else strengths

/-- The `extractWeaknesses` helper of the SWOT route. -/
def extractWeaknesses (ideaAnalysis competitionAnalysis : TextSignal) : List String :=
  let weaknesses : List String :=
    if ideaAnalysis.sentiment.score < 0 then
      ["Potential negative market perception"]
    else []
  let competitorStrengths := (competitionAnalysis.entities.filter
    (fun e => e.salience > 3/10 && e.sentiment.score > 0)).map (fun e => e.name)
  if competitorStrengths.length > 0 then
    weaknesses ++ ["Strong competition in: "
      ++ String.intercalate ", " competitorStrengths]
  else weaknesses

/-- The `extractOpportunities` helper of the SWOT route: a fixed message
for positive market sentiment, plus one per high-confidence category. -/
def extractOpportunities (marketAnalysis : TextSignal) : List String :=
  let opportunities : List String :=
    if marketAnalysis.sentiment.score > 0 then
      ["Favorable market conditions"]
    else []
  opportunities ++ (marketAnalysis.categories.filter
    (fun c => c.confidence > 7/10)).map
      (fun c => "High potential in " ++ c.name)

/-- The `extractThreats` helper of the SWOT route. -/
def extractThreats (competitionAnalysis marketAnalysis : TextSignal) : List String :=
  let threats : List String :=
    if marketAnalysis.sentiment.score < -(1/5) then
      ["Challenging market conditions"]
    else []
  let strongCompetitors := (competitionAnalysis.entities.filter
    (fun e => e.salience > 3/10 && e.sentiment.score > 1/2)).map (fun e => e.name)
  if strongCompetitors.length > 0 then
    threats ++ ["Strong competition from: "
      ++ String.intercalate ", " strongCompetitors]
  else threats

end Idea

/-! Concrete inputs used to instantiate the theorems below. -/

/-- A pitch signal with neutral document sentiment and one entity. -/
def c1pitch : TextSignal :=
  ⟨⟨0, 0⟩, [⟨"Alpha", "OTHER", 1, ⟨0, 0⟩, none⟩], ⟨[]⟩, []⟩

/-- A requirements signal whose sole entity name overlaps `c1pitch`'s
case-insensitively. -/
def c1req : TextSignal :=
  ⟨⟨0, 0⟩, [⟨"ALPHA", "OTHER", 1, ⟨0, 0⟩, none⟩], ⟨[]⟩, []⟩

/-- The first entity of the key-factor scenario, salience 0.5. -/
def c2e1 : Entity := ⟨"alpha", "OTHER", 1/2, ⟨0, 0⟩, none⟩

/-- The second entity of the key-factor scenario, salience 0.25. -/
def c2e2 : Entity := ⟨"beta", "OTHER", 1/4, ⟨0, 0⟩, none⟩

/-- The third entity of the key-factor scenario, salience 0.05. -/
def c2e3 : Entity := ⟨"gamma", "OTHER", 1/20, ⟨0, 0⟩, none⟩

/-- The key-factor scenario signal: document sentiment 0.5, entity
saliences 0.5, 0.25, 0.05. -/
def c2sig : TextSignal := ⟨⟨1/2, 0⟩, [c2e1, c2e2, c2e3], ⟨[]⟩, []⟩

/-- A business signal with neutral sentiment. -/
def c3b : TextSignal := ⟨⟨0, 0⟩, [], ⟨[]⟩, []⟩

/-- A financials signal with the most negative sentiment score. -/
def c3f : TextSignal := ⟨⟨-1, 0⟩, [], ⟨[]⟩, []⟩

/-- A team signal with neutral sentiment. -/
def c3t : TextSignal := ⟨⟨0, 0⟩, [], ⟨[]⟩, []⟩

/-- A neutral empty signal for the clamping bounds. -/
def c4sig : TextSignal := ⟨⟨0, 0⟩, [], ⟨[]⟩, []⟩

/-- An entity with salience 1, above both filter thresholds. -/
def c5entity : Entity := ⟨"alpha", "OTHER", 1, ⟨0, 0⟩, none⟩

/-- A signal holding only `c5entity`. -/
def c5sig : TextSignal := ⟨⟨0, 0⟩, [c5entity], ⟨[]⟩, []⟩

/-- A signal with no entities but strongly positive document sentiment. -/
def c6sig : TextSignal := ⟨⟨1/2, 0⟩, [], ⟨[]⟩, []⟩

/-- A signal with no entities, neutral sentiment and no categories. -/
def c6zero : TextSignal := ⟨⟨0, 0⟩, [], ⟨[]⟩, []⟩

/-- A signal whose syntactic breakdown has zero sentences. -/
def c7sig : TextSignal := ⟨⟨0, 0⟩, [], ⟨[]⟩, []⟩

/-- A text-signal extractor that fails on the input `"bad"` and succeeds
with an empty neutral signal otherwise. -/
def c8extract : String → Except String TextSignal :=
  fun s => if s = "bad" then .error "upstream unavailable"
    else .ok ⟨⟨0, 0⟩, [], ⟨[]⟩, []⟩

/-- A pitch signal: neutral score, zero magnitude, entity `"Alpha"`. -/
def c9p : TextSignal := ⟨⟨0, 0⟩, [⟨"Alpha", "OTHER", 1, ⟨0, 0⟩, none⟩], ⟨[]⟩, []⟩

/-- A second pitch signal differing from `c9p` in magnitude, entity casing
and categories, but agreeing on every projection the classifier reads. -/
def c9p' : TextSignal :=
  ⟨⟨0, 2⟩, [⟨"ALPHA", "OTHER", 1, ⟨0, 0⟩, none⟩], ⟨[]⟩, [⟨"news", 1⟩]⟩

/-- A requirements signal overlapping `c9p` case-insensitively. -/
def c9r : TextSignal := ⟨⟨0, 0⟩, [⟨"alpha", "OTHER", 1, ⟨0, 0⟩, none⟩], ⟨[]⟩, []⟩

/-- A signal with sentiment score -1 and magnitude 2. -/
def c10sig : TextSignal := ⟨⟨-1, 2⟩, [], ⟨[]⟩, []⟩

/-! Helper lemmas shared by the theorems below. -/

/-- Folding `+10` over the elements satisfying a Boolean predicate counts
the matching elements. -/
lemma foldl_add_ten_eq (p : String → Bool) (l : List String) (acc : ℚ) :
    l.foldl (fun a e => if p e then a + 10 else a) acc
      = acc + 10 * ((l.filter p).length : ℚ) := by
  induction l generalizing acc with
  | nil => simp
  | cons h t ih =>
    by_cases hp : p h
    · simp only [List.foldl_cons, List.filter_cons, hp, if_true, ih, List.length_cons]
      push_cast
      ring
    · simp only [List.foldl_cons, List.filter_cons, hp, if_false, ih,
        Bool.false_eq_true]

/-- The source's `calculateMatchScore` computes the specification's
closed-form match score. -/
lemma calculateMatchScore_eq (p r : TextSignal) :
    Funding.calculateMatchScore p r = Funding.matchScoreFormula p r := by
  simp only [Funding.calculateMatchScore, Funding.matchScoreFormula, Funding.overlapCount]
  rw [foldl_add_ten_eq]

/-- The source's `calculateReadinessScore` computes the specification's
closed-form readiness score. -/
lemma calculateReadinessScore_eq (b f t : TextSignal) :
    Funding.calculateReadinessScore b f t = Funding.readinessScoreFormula b f t := by
  unfold Funding.calculateReadinessScore Funding.readinessScoreFormula
  norm_num

/-- The length of a filter that only inspects a projection of each element
is determined by the list of projections. -/
lemma length_filter_eq_of_map_eq {α β : Type} (f : α → β) (p : β → Bool) :
    ∀ l l' : List α, l.map f = l'.map f →
      (l.filter (fun a => p (f a))).length = (l'.filter (fun a => p (f a))).length := by
  intro l
  induction l with
  | nil =>
    intro l' h
    cases l' <;> simp_all
  | cons a t ih =>
    intro l' h
    cases l' with
    | nil => simp at h
    | cons b t' =>
      simp only [List.map_cons, List.cons.injEq] at h
      simp only [List.filter_cons, h.1]
      cases hp : p (f b) <;> simp [ih t' h.2]

/-- The overlap count depends only on the lower-cased entity-name lists. -/
lemma overlapCount_congr (p p' r r' : TextSignal)
    (hp : p.entities.map (fun e => toLowerCase e.name)
        = p'.entities.map (fun e => toLowerCase e.name))
    (hr : r.entities.map (fun e => toLowerCase e.name)
        = r'.entities.map (fun e => toLowerCase e.name)) :
    Funding.overlapCount p r = Funding.overlapCount p' r' := by
  unfold Funding.overlapCount
  rw [hr, hp]

/-- C1: for sentiment scores in [-1,1], `calculateMatchScore` equals
`min(100, (pitch sentiment + 1) * 50 + 10 per case-insensitively
overlapping requirements entity name)`; with neutral sentiment and exactly
one overlapping name the score is 60. -/
theorem matchScore_spec (p r : TextSignal)
    (h1 : -1 ≤ p.sentiment.score) (h2 : p.sentiment.score ≤ 1) :
    Funding.calculateMatchScore p r = Funding.matchScoreFormula p r
    ∧ (p.sentiment.score = 0 → Funding.overlapCount p r = 1 →
        Funding.calculateMatchScore p r = 60) := by
  refine ⟨calculateMatchScore_eq p r, fun hs ho => ?_⟩
  rw [calculateMatchScore_eq]
  unfold Funding.matchScoreFormula
  rw [hs, ho]
  norm_num

/-- Witness for C1: a neutral pitch and a requirements signal with one
case-insensitively overlapping entity name give match score 60. -/
theorem matchScore_spec_witness :
    c1pitch.sentiment.score = 0 ∧ Funding.overlapCount c1pitch c1req = 1
    ∧ Funding.calculateMatchScore c1pitch c1req = 60 :=
  ⟨rfl, by decide,
    (matchScore_spec c1pitch c1req (by norm_num [c1pitch]) (by norm_num [c1pitch])).2
      rfl (by decide)⟩

/-- C3: for sentiment scores in [-1,1], `calculateReadinessScore` equals
`min(100, (business + 1) * 20 + (financial + 1) * 20 + (team + 1) * 10)`;
with financial sentiment -1 the financial component contributes 0. -/
theorem readinessScore_spec (b f t : TextSignal)
    (hb1 : -1 ≤ b.sentiment.score) (hb2 : b.sentiment.score ≤ 1)
    (hf1 : -1 ≤ f.sentiment.score) (hf2 : f.sentiment.score ≤ 1)
    (ht1 : -1 ≤ t.sentiment.score) (ht2 : t.sentiment.score ≤ 1) :
    Funding.calculateReadinessScore b f t = Funding.readinessScoreFormula b f t
    ∧ (f.sentiment.score = -1 →
        Funding.calculateReadinessScore b f t
          = min 100 ((b.sentiment.score + 1) * 20 + (t.sentiment.score + 1) * 10)) := by
  refine ⟨calculateReadinessScore_eq b f t, fun hf => ?_⟩
  rw [calculateReadinessScore_eq]
  unfold Funding.readinessScoreFormula
  rw [hf]
  norm_num

/-- Witness for C3: with financial sentiment -1 and neutral business and
team sentiment the readiness score is `min 100 30 = 30`. -/
theorem readinessScore_spec_witness :
    Funding.calculateReadinessScore c3b c3f c3t = 30 := by
  have h := (readinessScore_spec c3b c3f c3t (by norm_num [c3b]) (by norm_num [c3b])
    (by norm_num [c3f]) (by norm_num [c3f]) (by norm_num [c3t]) (by norm_num [c3t])).2 rfl
  rw [h]
  norm_num [c3b, c3t]

/-- C4: with document sentiment scores at least -1, both the match score
and the readiness score lie in [0, 100], for any entity lists. -/
theorem scores_clamped (p r b f t : TextSignal)
    (hp : -1 ≤ p.sentiment.score) (hb : -1 ≤ b.sentiment.score)
    (hf : -1 ≤ f.sentiment.score) (ht : -1 ≤ t.sentiment.score) :
    (0 ≤ Funding.calculateMatchScore p r ∧ Funding.calculateMatchScore p r ≤ 100)
    ∧ (0 ≤ Funding.calculateReadinessScore b f t
        ∧ Funding.calculateReadinessScore b f t ≤ 100) := by
  rw [calculateMatchScore_eq, calculateReadinessScore_eq]
  unfold Funding.matchScoreFormula Funding.readinessScoreFormula
  refine ⟨⟨le_min (by norm_num) ?_, min_le_left _ _⟩,
    ⟨le_min (by norm_num) ?_, min_le_left _ _⟩⟩
  · have h1 : (0:ℚ) ≤ (p.sentiment.score + 1) * 50 :=
      mul_nonneg (by linarith) (by norm_num)
    have h2 : (0:ℚ) ≤ 10 * (Funding.overlapCount p r : ℚ) :=
      mul_nonneg (by norm_num) (Nat.cast_nonneg _)
    linarith
  · have h1 : (0:ℚ) ≤ (b.sentiment.score + 1) * 20 :=
      mul_nonneg (by linarith) (by norm_num)
    have h2 : (0:ℚ) ≤ (f.sentiment.score + 1) * 20 :=
      mul_nonneg (by linarith) (by norm_num)
    have h3 : (0:ℚ) ≤ (t.sentiment.score + 1) * 10 :=
      mul_nonneg (by linarith) (by norm_num)
    linarith

/-- Witness for C4: on neutral empty signals both scores are in [0,100]. -/
theorem scores_clamped_witness :
    (0 ≤ Funding.calculateMatchScore c4sig c4sig
      ∧ Funding.calculateMatchScore c4sig c4sig ≤ 100)
    ∧ (0 ≤ Funding.calculateReadinessScore c4sig c4sig c4sig
        ∧ Funding.calculateReadinessScore c4sig c4sig c4sig ≤ 100) :=
  scores_clamped c4sig c4sig c4sig c4sig c4sig (by norm_num [c4sig])
    (by norm_num [c4sig]) (by norm_num [c4sig]) (by norm_num [c4sig])

/-- C2 counterexample: on the scenario signal (saliences 0.5, 0.25, 0.05)
the key-factor extraction does not return the first two entities — 0.25
fails the `salience > 0.3` filter, so only the first entity is kept. -/
theorem keyFactors_counterexample :
    Market.extractKeyFactors c2sig ≠ [⟨"alpha", 1/2, 0⟩, ⟨"beta", 1/4, 0⟩]
    ∧ (Market.extractKeyFactors c2sig).length = 1 := by
  norm_num [Market.extractKeyFactors, c2sig, c2e1, c2e2, c2e3, List.filter]

/-- C2 amended: on a signal with document sentiment 0.5 and exactly three
entities of salience 0.5, 0.25 and 0.05, the key-factor extraction keeps
exactly the first entity. -/
theorem keyFactors_scenario (a : TextSignal) (e1 e2 e3 : Entity)
    (hs : a.sentiment.score = 1/2) (hents : a.entities = [e1, e2, e3])
    (h1 : e1.salience = 1/2) (h2 : e2.salience = 1/4) (h3 : e3.salience = 1/20) :
    Market.extractKeyFactors a = [⟨e1.name, e1.salience, e1.sentiment.score⟩] := by
  simp only [Market.extractKeyFactors, hents, List.filter, h1, h2, h3]
  norm_num [h1]

/-- Witness for C2 amended: the concrete scenario signal yields exactly
its first entity as the sole key factor. -/
theorem keyFactors_scenario_witness :
    Market.extractKeyFactors c2sig = [⟨c2e1.name, c2e1.salience, c2e1.sentiment.score⟩] :=
  keyFactors_scenario c2sig c2e1 c2e2 c2e3 (by norm_num [c2sig]) rfl
    (by norm_num [c2e1]) (by norm_num [c2e2]) (by norm_num [c2e3])

/-- C5: salience filtering is antitone in the threshold — every entity
kept at a threshold is kept at any lower threshold — and consequently
every key factor (salience > 0.3) also appears, by name, among the
resources (salience > 0.2). -/
theorem salience_filter_monotone :
    (∀ (es : List Entity) (t1 t2 : ℚ), t2 ≤ t1 →
      ∀ e ∈ es.filter (fun x => x.salience > t1),
        e ∈ es.filter (fun x => x.salience > t2))
    ∧ ∀ (a : TextSignal) (k : Market.KeyFactor), k ∈ Market.extractKeyFactors a →
        k.factor ∈ (Market.analyzeResources a).map (fun r => r.resource) := by
  constructor
  · intro es t1 t2 hle e he
    simp only [List.mem_filter, decide_eq_true_eq] at he ⊢
    exact ⟨he.1, lt_of_le_of_lt hle he.2⟩
  · intro a k hk
    simp only [Market.extractKeyFactors, List.mem_map, List.mem_filter,
      decide_eq_true_eq] at hk
    obtain ⟨e, ⟨hmem, hsal⟩, rfl⟩ := hk
    simp only [Market.analyzeResources, List.map_map, List.mem_map, List.mem_filter,
      decide_eq_true_eq, Function.comp]
    exact ⟨e, ⟨hmem, by linarith⟩, rfl⟩

/-- Witness for C5: the salience-1 entity kept by the 0.3 filter is kept
by the 0.2 filter, and its key factor appears among the resources. -/
theorem salience_filter_monotone_witness :
    c5entity ∈ [c5entity].filter (fun x => x.salience > (1:ℚ)/5)
    ∧ "alpha" ∈ (Market.analyzeResources c5sig).map (fun r => r.resource) :=
  ⟨salience_filter_monotone.1 [c5entity] (3/10) (1/5) (by norm_num) c5entity
      (by norm_num [List.filter, c5entity]),
    salience_filter_monotone.2 c5sig ⟨"alpha", 1, 0⟩
      (by norm_num [Market.extractKeyFactors, c5sig, c5entity, List.filter])⟩

/-- C6 counterexample: a signal with an empty entity list but document
sentiment 0.5 produces a nonempty SWOT strengths list, because the
strengths bucket pushes a fixed message on sentiment alone. -/
theorem swot_nonempty_counterexample :
    c6sig.entities = [] ∧ Idea.extractStrengths c6sig c6sig ≠ [] := by
  constructor
  · rfl
  · norm_num [Idea.extractStrengths, c6sig, List.filter]

/-- C6 amended: with empty entity lists the SWOT computation is total and
its entity-derived contributions vanish; each bucket is empty exactly when
its sentiment/category condition also fails — strengths iff idea sentiment
is at most 0.3, weaknesses iff idea sentiment is at least 0, opportunities
iff market sentiment is at most 0 and no category confidence exceeds 0.7,
threats iff market sentiment is at least -0.2. -/
theorem swot_empty_entities (idea market competition : TextSignal)
    (hi : idea.entities = []) (hm : market.entities = [])
    (hc : competition.entities = []) :
    (Idea.extractStrengths idea market = [] ↔ idea.sentiment.score ≤ 3/10)
    ∧ (Idea.extractWeaknesses idea competition = [] ↔ 0 ≤ idea.sentiment.score)
    ∧ (Idea.extractOpportunities market = [] ↔
        market.sentiment.score ≤ 0 ∧ ∀ c ∈ market.categories, c.confidence ≤ 7/10)
    ∧ (Idea.extractThreats competition market = [] ↔ -(1/5) ≤ market.sentiment.score) := by
  refine ⟨?_, ?_, ?_, ?_⟩
  · simp [Idea.extractStrengths, hm, apply_ite List.length, not_lt]
  · simp [Idea.extractWeaknesses, hc, apply_ite List.length, not_lt]
  · simp only [Idea.extractOpportunities, List.append_eq_nil, List.map_eq_nil_iff,
      List.filter_eq_nil_iff, decide_eq_true_eq]
    constructor
    · rintro ⟨h1, h2⟩
      refine ⟨?_, fun c hc => not_lt.mp (h2 c hc)⟩
      by_contra hpos
      push_neg at hpos
      rw [if_pos hpos] at h1
      exact List.cons_ne_nil _ _ h1
    · rintro ⟨h1, h2⟩
      exact ⟨by rw [if_neg (not_lt.mpr h1)], fun c hc => not_lt.mpr (h2 c hc)⟩
  · simp [Idea.extractThreats, hc, apply_ite List.length, not_lt, neg_div]

/-- Witness for C6 amended: on an empty neutral signal every SWOT bucket
is empty. -/
theorem swot_empty_entities_witness :
    Idea.extractStrengths c6zero c6zero = []
    ∧ Idea.extractWeaknesses c6zero c6zero = []
    ∧ Idea.extractOpportunities c6zero = []
    ∧ Idea.extractThreats c6zero c6zero = [] := by
  have h := swot_empty_entities c6zero c6zero c6zero rfl rfl rfl
  exact ⟨h.1.mpr (by norm_num [c6zero]), h.2.1.mpr (by norm_num [c6zero]),
    h.2.2.1.mpr (by norm_num [c6zero]), h.2.2.2.mpr (by norm_num [c6zero])⟩

/-- C7: on a signal whose syntactic breakdown has zero sentences, the
structure feedback's average sentence length is the unguarded `0 / 0`,
i.e. the undefined value (`none` models the JavaScript `NaN`). -/
theorem averageLength_zero_sentences :
    (Pitch.analyzeStructure c7sig).averageLength = none := by
  norm_num [Pitch.analyzeStructure, c7sig, jsDiv]

/-- C8: if any of the three text-signal extractions of the `/analyze`
route fails, the whole request answers the single static 500 error and no
partial analysis; if all succeed, the full analysis of the three signals
is returned. -/
theorem analyzeRoute_error_propagation
    (g : String → Except String TextSignal) (market industry trends : String) :
    (((∃ e, g market = .error e) ∨ (∃ e, g industry = .error e) ∨
        (∃ e, g trends = .error e)) →
      Market.analyzeRoute g market industry trends
        = .errorJson 500 "Failed to analyze market")
    ∧ ∀ m i t, g market = .ok m → g industry = .ok i → g trends = .ok t →
        Market.analyzeRoute g market industry trends
          = .json (Market.buildMarketAnalysis m i t) := by
  constructor
  · intro h
    cases hm : g market with
    | error e => simp [Market.analyzeRoute, hm]
    | ok m =>
      cases hi : g industry with
      | error e => simp [Market.analyzeRoute, hm, hi]
      | ok i =>
        cases ht : g trends with
        | error e => simp [Market.analyzeRoute, hm, hi, ht]
        | ok t =>
          exfalso
          rcases h with ⟨e, he⟩ | ⟨e, he⟩ | ⟨e, he⟩ <;> simp_all
  · intro m i t hm hi ht
    simp [Market.analyzeRoute, hm, hi, ht]

/-- Witness for C8: with an extractor that fails on `"bad"`, a request
whose market field fails gets the 500 error, and a request whose three
fields succeed gets the full analysis. -/
theorem analyzeRoute_error_propagation_witness :
    Market.analyzeRoute c8extract "bad" "x" "y"
      = .errorJson 500 "Failed to analyze market"
    ∧ Market.analyzeRoute c8extract "a" "b" "c"
      = .json (Market.buildMarketAnalysis ⟨⟨0, 0⟩, [], ⟨[]⟩, []⟩
          ⟨⟨0, 0⟩, [], ⟨[]⟩, []⟩ ⟨⟨0, 0⟩, [], ⟨[]⟩, []⟩) :=
  ⟨(analyzeRoute_error_propagation c8extract "bad" "x" "y").1
      (Or.inl ⟨"upstream unavailable", rfl⟩),
    (analyzeRoute_error_propagation c8extract "a" "b" "c").2 _ _ _ rfl rfl rfl⟩

/-- C9: the classifier helpers are deterministic pure functions — their
outputs are fully determined by the projections of the input signals they
read: the match score by the pitch sentiment score and the lower-cased
entity-name lists, the key factors by the entity list, the market
recommendations by the market sentiment score and the industry entity
sentiment scores, and the readiness score by the three sentiment scores. -/
theorem classifier_deterministic :
    (∀ p p' r r' : TextSignal,
      p.sentiment.score = p'.sentiment.score →
      p.entities.map (fun e => toLowerCase e.name)
        = p'.entities.map (fun e => toLowerCase e.name) →
      r.entities.map (fun e => toLowerCase e.name)
        = r'.entities.map (fun e => toLowerCase e.name) →
      Funding.calculateMatchScore p r = Funding.calculateMatchScore p' r')
    ∧ (∀ a a' : TextSignal, a.entities = a'.entities →
        Market.extractKeyFactors a = Market.extractKeyFactors a')
    ∧ (∀ m m' i i' : TextSignal,
        m.sentiment.score = m'.sentiment.score →
        i.entities.map (fun e => e.sentiment.score)
          = i'.entities.map (fun e => e.sentiment.score) →
        Market.generateMarketRecommendations m i
          = Market.generateMarketRecommendations m' i')
    ∧ ∀ b b' f f' t t' : TextSignal,
        b.sentiment.score = b'.sentiment.score →
        f.sentiment.score = f'.sentiment.score →
        t.sentiment.score = t'.sentiment.score →
        Funding.calculateReadinessScore b f t
          = Funding.calculateReadinessScore b' f' t' := by
  refine ⟨?_, ?_, ?_, ?_⟩
  · intro p p' r r' hs hp hr
    rw [calculateMatchScore_eq, calculateMatchScore_eq]
    unfold Funding.matchScoreFormula
    rw [hs, overlapCount_congr p p' r r' hp hr]
  · intro a a' h
    unfold Market.extractKeyFactors
    rw [h]
  · intro m m' i i' hm hi
    have hlen : (Market.extractChallenges i).length
        = (Market.extractChallenges i').length := by
      simp only [Market.extractChallenges, List.length_map]
      exact length_filter_eq_of_map_eq (fun e => e.sentiment.score)
        (fun q => decide (q < 0)) i.entities i'.entities hi
    simp only [Market.generateMarketRecommendations]
    rw [hm, hlen]
  · intro b b' f f' t t' hb hf ht
    unfold Funding.calculateReadinessScore
    rw [hb, hf, ht]

/-- Witness for C9: two pitch signals differing in magnitude, entity
casing and categories, but agreeing on the projections the classifier
reads, give the same match score; equal projections likewise reproduce
the other three outputs. -/
theorem classifier_deterministic_witness :
    Funding.calculateMatchScore c9p c9r = Funding.calculateMatchScore c9p' c9r
    ∧ Market.extractKeyFactors c9p = Market.extractKeyFactors c9p
    ∧ Market.generateMarketRecommendations c9p c9r
      = Market.generateMarketRecommendations c9p c9r
    ∧ Funding.calculateReadinessScore c9p c9p c9p
      = Funding.calculateReadinessScore c9p c9p c9p :=
  ⟨classifier_deterministic.1 c9p c9p' c9r c9r rfl (by decide) rfl,
    classifier_deterministic.2.1 c9p c9p rfl,
    classifier_deterministic.2.2.1 c9p c9p c9r c9r rfl rfl,
    classifier_deterministic.2.2.2 c9p c9p c9p c9p c9p c9p rfl rfl rfl⟩

/-- C10: the idea-check feasibility score and the practice-feedback impact
score equal sentiment score times 100 and are negative for negative
sentiment (reaching -100 at sentiment -1), and the clarity score equals
sentiment magnitude times 100 and exceeds 100 whenever the magnitude
exceeds 1 — none of them is clamped to [0,100]. -/
theorem unclamped_scores (a : TextSignal)
    (h1 : -1 ≤ a.sentiment.score) (h2 : a.sentiment.score ≤ 1) :
    (Idea.ideaCheckFeasibility a).score = a.sentiment.score * 100
    ∧ (Pitch.analyzeImpact a).score = a.sentiment.score * 100
    ∧ (a.sentiment.score < 0 → (Idea.ideaCheckFeasibility a).score < 0
        ∧ (Pitch.analyzeImpact a).score < 0)
    ∧ (a.sentiment.score = -1 → (Idea.ideaCheckFeasibility a).score = -100)
    ∧ (Pitch.analyzeClarity a).score = a.sentiment.magnitude * 100
    ∧ (1 < a.sentiment.magnitude → 100 < (Pitch.analyzeClarity a).score) := by
  refine ⟨rfl, rfl, fun h => ⟨?_, ?_⟩, fun h => ?_, rfl, fun h => ?_⟩
  · show a.sentiment.score * 100 < 0
    nlinarith
  · show a.sentiment.score * 100 < 0
    nlinarith
  · show a.sentiment.score * 100 = -100
    rw [h]; norm_num
  · show (100:ℚ) < a.sentiment.magnitude * 100
    nlinarith

/-- Witness for C10: at sentiment score -1 and magnitude 2 the feasibility
score is -100 and the clarity score exceeds 100. -/
theorem unclamped_scores_witness :
    (Idea.ideaCheckFeasibility c10sig).score = -100
    ∧ 100 < (Pitch.analyzeClarity c10sig).score := by
  have h := unclamped_scores c10sig (by norm_num [c10sig]) (by norm_num [c10sig])
  exact ⟨h.2.2.2.1 (by norm_num [c10sig]), h.2.2.2.2.2 (by norm_num [c10sig])⟩
